import Mathlib

/-!
Shallow embedding of the two Playwright automation scripts of this
repository, `jules-scratch/verification/add_client.py` and
`jules-scratch/verification/verify_multi_part_devolution.py`.

Each script is a straight-line sequence of browser interactions wrapped in
a `try`/`finally` block.  We embed a script as three lists of abstract
actions: the statements executed before the `try` block (`prelude`), the
statements of the `try` body (`body`), and the statements of the `finally`
block (`final`).  Execution is modelled by `executed`, parameterised by an
optional index of the first statement that raises an exception: the
statements completed before the raise are the trace, and the `finally`
block runs exactly when the raise happens inside the `try` body (or when
nothing raises).
-/

/-- How a Playwright locator reaches a DOM element in these scripts:
`byLabel` is `page.get_by_label(name)`, `byRoleButton` is
`page.get_by_role("button", name=...)`, `byCss` is `page.locator(css)`
with a raw CSS string, and `byCssLabel css name` is the chained locator
`page.locator(css).get_by_label(name)` used for the part-row fields. -/
inductive Selector where
  | byLabel (s : String)
  | byRoleButton (s : String)
  | byCss (css : String)
  | byCssLabel (css : String) (s : String)
deriving DecidableEq, Repr

/-- One statement of a script, abstracting the Playwright API calls that
appear in the two source files. -/
inductive Act where
  | launch
  | newPage
  | onConsole
  | onDialogAccept
  | goto (url : String)
  | expectVisible (sel : Selector)
  | expectContainsText (sel : Selector) (text : String)
  | fill (sel : Selector) (value : String)
  | selectOption (sel : Selector) (value : String)
  | click (sel : Selector)
  | waitTimeout (ms : Nat)
  | screenshot (path : String)
  | close
deriving DecidableEq, Repr

/-- A script: the statements before the `try`, the `try` body, and the
`finally` block. -/
structure Script where
  prelude : List Act
  body : List Act
  final : List Act

open Act Selector

/-- The `run` function of `add_client.py`, statement by statement.
`launch`, `new_page` and the two `page.on` registrations precede the
`try`; `browser.close()` is the `finally` block. -/
def add_client : Script where
  prelude := [launch, newPage, onConsole, onDialogAccept]
  body :=
    [ goto "http://localhost:5173/pages/cadastro-pessoas.html",
      expectVisible (byCss "#navbarNav"),
      fill (byLabel "Nome Completo") "Test Client",
      selectOption (byLabel "Tipo") "Cliente",
      click (byRoleButton "Salvar"),
      waitTimeout 2000 ]
  final := [close]

/-- CSS selector of the first part row in `verify_multi_part_devolution.py`. -/
def partRow0 : String := ".part-row[data-part-index=\"0\"]"

/-- CSS selector of the second part row. -/
def partRow1 : String := ".part-row[data-part-index=\"1\"]"

/-- Path passed to `page.screenshot` in `verify_multi_part_devolution.py`. -/
def screenshotPath : String := "jules-scratch/verification/multi_part_verification.png"

/-- The `run` function of `verify_multi_part_devolution.py`, statement by
statement.  Only `launch` and `new_page` precede the `try`; no `page.on`
handler is registered; `browser.close()` is the `finally` block. -/
def verify_multi_part_devolution : Script where
  prelude := [launch, newPage]
  body :=
    [ goto "http://localhost:5173/pages/cadastro-pessoas.html",
      fill (byLabel "Nome Completo") "Test Client",
      selectOption (byLabel "Tipo") "Cliente",
      click (byRoleButton "Salvar"),
      waitTimeout 2000,
      goto "http://localhost:5173/pages/cadastro.html",
      expectVisible (byCss "#navbarNav"),
      click (byRoleButton "Adicionar Peça"),
      fill (byCssLabel partRow0 "Código da Peça") "PART-001",
      fill (byCssLabel partRow0 "Quantidade") "1",
      fill (byCssLabel partRow0 "Descrição da Peça") "Part 1 Description",
      fill (byCssLabel partRow1 "Código da Peça") "PART-002",
      fill (byCssLabel partRow1 "Quantidade") "2",
      fill (byCssLabel partRow1 "Descrição da Peça") "Part 2 Description",
      selectOption (byLabel "Cliente") "Test Client",
      fill (byLabel "Requisição de Venda") "REQ-123",
      selectOption (byLabel "Ação na Requisição") "Alterada",
      fill (byLabel "Data da Venda") "2023-01-01",
      fill (byLabel "Data da Devolução") "2023-01-02",
      click (byRoleButton "Salvar Devolução"),
      expectVisible (byCss ".alert-success"),
      expectContainsText (byCss ".alert-success") "Devolução registrada com sucesso!",
      screenshot screenshotPath ]
  final := [close]

/-- Number of statements that can raise: everything before the `finally`. -/
def Script.numSteps (s : Script) : Nat :=
  s.prelude.length + s.body.length

/-- The sequence of statements completed in an execution of the script.
`fail = none` means every statement succeeds; `fail = some k` means the
statement at global index `k` (counting `prelude` then `body`) raises an
exception.  A raise inside `prelude` skips the `try`, so `finally` never
runs; a raise inside `body` still runs the `finally` block. -/
def executed (s : Script) (fail : Option Nat) : List Act :=
  match fail with
  | none => s.prelude ++ s.body ++ s.final
  | some k =>
    if k < s.prelude.length then s.prelude.take k
    else s.prelude ++ s.body.take (k - s.prelude.length) ++ s.final

/-- The full trace of a successful execution of `add_client.py`. -/
def addClientTrace : List Act := executed add_client none

/-- The full trace of a successful execution of
`verify_multi_part_devolution.py`. -/
def verifyTrace : List Act := executed verify_multi_part_devolution none

/-- A fixed-duration wait (`page.wait_for_timeout`), the only kind of wait
not tied to an element condition. -/
def isFixedWait : Act → Bool
  | .waitTimeout _ => true
  | _ => false

/-- A form-field write: `fill` or `select_option`. -/
def isFormFill : Act → Bool
  | .fill _ _ => true
  | .selectOption _ _ => true
  | _ => false

/-- An assertion on page state (`expect(...).to_be_visible()` or
`expect(...).to_contain_text(...)`). -/
def isAssertion : Act → Bool
  | .expectVisible _ => true
  | .expectContainsText _ _ => true
  | _ => false

/-- A click on the button with the given visible label. -/
def isClickNamed (n : String) : Act → Bool
  | .click (.byRoleButton m) => m == n
  | _ => false

/-- A click that submits a form in these scripts. -/
def isSubmitClick : Act → Bool
  | .click (.byRoleButton m) => m == "Salvar" || m == "Salvar Devolução"
  | _ => false

/-- A `page.on` event-handler registration. -/
def isHandlerReg : Act → Bool
  | .onConsole => true
  | .onDialogAccept => true
  | _ => false

/-- A navigation (`page.goto`). -/
def isGoto : Act → Bool
  | .goto _ => true
  | _ => false

/-- The browser launch. -/
def isLaunch : Act → Bool
  | .launch => true
  | _ => false

/-- A screenshot, the only statement with a file-system effect. -/
def isFsEffect : Act → Bool
  | .screenshot _ => true
  | _ => false

/-- A fill of a field inside a part row (chained row locator). -/
def isPartFill : Act → Bool
  | .fill (.byCssLabel _ _) _ => true
  | _ => false

/-- An assertion on the success message element. -/
def isSuccessAssert : Act → Bool
  | .expectVisible (.byCss s) => s == ".alert-success"
  | .expectContainsText (.byCss s) _ => s == ".alert-success"
  | _ => false

/-- Every action in `t` satisfying `p` occurs strictly before every action
satisfying `q`. -/
def allBefore (t : List Act) (p q : Act → Bool) : Bool :=
  t.enum.all fun ia =>
    !(p ia.2) || t.enum.all fun jb => !(q jb.2) || decide (ia.1 < jb.1)

/-- The selector an action uses to reach a DOM element, if any. -/
def selOf : Act → Option Selector
  | .expectVisible sel => some sel
  | .expectContainsText sel _ => some sel
  | .fill sel _ => some sel
  | .selectOption sel _ => some sel
  | .click sel => some sel
  | _ => none

/-- The four selector kinds the spec allows: a form-field label, the
navigation id `#navbarNav`, a button's visible label text, or the
success-message class `.alert-success`. -/
def allowedSelector : Selector → Bool
  | .byLabel _ => true
  | .byRoleButton _ => true
  | .byCss s => s == "#navbarNav" || s == ".alert-success"
  | .byCssLabel _ _ => false

/-- The action reaches its element only through a spec-allowed selector. -/
def usesAllowedSelector (a : Act) : Bool :=
  match selOf a with
  | none => true
  | some sel => allowedSelector sel

/-- Selector kinds actually occurring in the scripts: additionally, a
label scoped inside a part-row CSS class-plus-attribute selector. -/
def allowedSelectorExt : Selector → Bool
  | .byLabel _ => true
  | .byRoleButton _ => true
  | .byCss s => s == "#navbarNav" || s == ".alert-success"
  | .byCssLabel css _ => css == partRow0 || css == partRow1

/-- The action reaches its element through a selector kind occurring in
the source. -/
def usesAllowedSelectorExt (a : Act) : Bool :=
  match selOf a with
  | none => true
  | some sel => allowedSelectorExt sel

/-- A dialog raised just before step `k` of the trace is auto-accepted iff
a dialog handler was registered by an earlier statement. -/
def dialogHandledAt (t : List Act) (k : Nat) : Bool :=
  (t.take k).contains Act.onDialogAccept

/-- The raise point, when present, lies inside the `try` body, so the
`finally` block runs. -/
def failsInTry (s : Script) (fail : Option Nat) : Bool :=
  match fail with
  | none => true
  | some k => decide (s.prelude.length ≤ k) && decide (k < s.numSteps)

/-- A `browser.close()` call. -/
def isClose : Act → Bool
  | .close => true
  | _ => false

/-- C1: in `verify_multi_part_devolution.py`, the devolution form is
filled with exactly the literal values PART-001 / quantity "1" in part
row 0, PART-002 / quantity "2" in part row 1, client "Test Client",
request "REQ-123", sale date "2023-01-01" and devolution date
"2023-01-02"; every form fill precedes the click on "Salvar Devolução",
and after that click the script asserts that the `.alert-success` element
is visible and contains the exact text
"Devolução registrada com sucesso!". -/
theorem C1_devolution_submit_then_success_assert :
    (Act.fill (Selector.byCssLabel partRow0 "Código da Peça") "PART-001") ∈ verifyTrace ∧
    (Act.fill (Selector.byCssLabel partRow0 "Quantidade") "1") ∈ verifyTrace ∧
    (Act.fill (Selector.byCssLabel partRow1 "Código da Peça") "PART-002") ∈ verifyTrace ∧
    (Act.fill (Selector.byCssLabel partRow1 "Quantidade") "2") ∈ verifyTrace ∧
    (Act.selectOption (Selector.byLabel "Cliente") "Test Client") ∈ verifyTrace ∧
    (Act.fill (Selector.byLabel "Requisição de Venda") "REQ-123") ∈ verifyTrace ∧
    (Act.fill (Selector.byLabel "Data da Venda") "2023-01-01") ∈ verifyTrace ∧
    (Act.fill (Selector.byLabel "Data da Devolução") "2023-01-02") ∈ verifyTrace ∧
    (Act.click (Selector.byRoleButton "Salvar Devolução")) ∈ verifyTrace ∧
    allBefore verifyTrace isFormFill (isClickNamed "Salvar Devolução") = true ∧
    allBefore verifyTrace (isClickNamed "Salvar Devolução") isSuccessAssert = true ∧
    verifyTrace.filter isSuccessAssert =
      [Act.expectVisible (Selector.byCss ".alert-success"),
       Act.expectContainsText (Selector.byCss ".alert-success")
         "Devolução registrada com sucesso!"] := by decide

/-- C2 counterexample: an exception at global step 1 (`browser.new_page()`,
which lies before the `try` block in `add_client.py`) is an exception at a
step of the script after which `browser.close()` is never executed. -/
theorem C2_counterexample :
    1 < add_client.numSteps ∧ Act.close ∉ executed add_client (some 1) := by decide

/-- C2 amended: in both scripts, whenever the body completes or the
raising step lies inside the `try` block, `browser.close()` is executed
before `run` returns.  (Exceptions at `launch` or `new_page`, which
precede the `try`, are the only executions that skip it.) -/
theorem C2_close_in_finally (f1 f2 : Option Nat)
    (h1 : failsInTry add_client f1 = true)
    (h2 : failsInTry verify_multi_part_devolution f2 = true) :
    Act.close ∈ executed add_client f1 ∧
    Act.close ∈ executed verify_multi_part_devolution f2 := by
  have A : ∀ k, k < 10 → 4 ≤ k → Act.close ∈ executed add_client (some k) := by decide
  have B : ∀ k, k < 25 → 2 ≤ k →
      Act.close ∈ executed verify_multi_part_devolution (some k) := by decide
  constructor
  · cases f1 with
    | none => decide
    | some k =>
      have h' : add_client.prelude.length ≤ k ∧ k < add_client.numSteps := by
        simpa [failsInTry] using h1
      exact A k h'.2 h'.1
  · cases f2 with
    | none => decide
    | some k =>
      have h' : verify_multi_part_devolution.prelude.length ≤ k ∧
          k < verify_multi_part_devolution.numSteps := by
        simpa [failsInTry] using h2
      exact B k h'.2 h'.1

/-- Witness for C2 amended at concrete raise points inside the two `try`
bodies. -/
theorem C2_close_in_finally_witness :
    Act.close ∈ executed add_client (some 5) ∧
    Act.close ∈ executed verify_multi_part_devolution (some 9) :=
  C2_close_in_finally (some 5) (some 9) (by decide) (by decide)

/-- C3 counterexample: `verify_multi_part_devolution.py` clicks the
"Salvar" button of the client form at step 5, and at that point (and
everywhere else) no dialog-accepting handler has been registered by that
script, so a dialog raised there is not accepted by the script. -/
theorem C3_counterexample :
    verifyTrace.get? 5 = some (Act.click (Selector.byRoleButton "Salvar")) ∧
    dialogHandledAt verifyTrace 6 = false := by decide

/-- C3 amended: only `add_client.py` registers a dialog handler; it is
registered at step 3, before navigation, so every dialog raised from
step 4 on is auto-accepted there, while `verify_multi_part_devolution.py`
never registers one, so no dialog is accepted by that script. -/
theorem C3_dialog_handler_only_add_client (k : Nat) (h4 : 4 ≤ k)
    (hlen : k ≤ addClientTrace.length) :
    dialogHandledAt addClientTrace k = true ∧
    Act.onDialogAccept ∉ verifyTrace := by
  have H : ∀ m, m ≤ 11 → 4 ≤ m → dialogHandledAt addClientTrace m = true := by decide
  exact ⟨H k hlen h4, by decide⟩

/-- Witness for C3 amended right after the handler registrations. -/
theorem C3_dialog_handler_only_add_client_witness :
    dialogHandledAt addClientTrace 4 = true ∧
    Act.onDialogAccept ∉ verifyTrace :=
  C3_dialog_handler_only_add_client 4 (by decide) (by decide)

/-- C4 counterexample: the part-row fields of
`verify_multi_part_devolution.py` are reached through the chained locator
`page.locator('.part-row[data-part-index="0"]').get_by_label(...)`, whose
row scope is a CSS class-plus-attribute selector, a selector kind outside
the four the claim allows. -/
theorem C4_counterexample :
    (addClientTrace.all usesAllowedSelector &&
      verifyTrace.all usesAllowedSelector) = false ∧
    (Act.fill (Selector.byCssLabel partRow0 "Código da Peça") "PART-001") ∈ verifyTrace ∧
    usesAllowedSelector
      (Act.fill (Selector.byCssLabel partRow0 "Código da Peça") "PART-001") = false := by
  decide

/-- C4 amended: every element the scripts interact with is located by a
form-field label, the id `#navbarNav`, a button's visible label text, the
class `.alert-success`, or a form-field label scoped inside one of the two
part-row CSS class-plus-attribute selectors; `add_client.py` alone uses
only the original four kinds. -/
theorem C4_selector_kinds :
    addClientTrace.all usesAllowedSelectorExt = true ∧
    verifyTrace.all usesAllowedSelectorExt = true ∧
    addClientTrace.all usesAllowedSelector = true := by decide

/-- C5: each script is straight-line: any two executions in which every
operation succeeds issue the identical sequence of interactions with
identical arguments, namely the fixed literal trace of the script. -/
theorem C5_straight_line (f1 f2 : Option Nat) (h1 : f1 = none) (h2 : f2 = none) :
    executed add_client f1 = executed add_client f2 ∧
    executed verify_multi_part_devolution f1 = executed verify_multi_part_devolution f2 ∧
    executed add_client f1 = addClientTrace ∧
    executed verify_multi_part_devolution f1 = verifyTrace := by
  subst h1; subst h2; exact ⟨rfl, rfl, rfl, rfl⟩

/-- Witness for C5 at the fully successful execution. -/
theorem C5_straight_line_witness :
    executed add_client none = executed add_client none ∧
    executed verify_multi_part_devolution none = executed verify_multi_part_devolution none ∧
    executed add_client none = addClientTrace ∧
    executed verify_multi_part_devolution none = verifyTrace :=
  C5_straight_line none none rfl rfl

/-- C6: in both scripts the only wait not tied to an element condition is
a single `wait_for_timeout(2000)`, and it immediately follows the click on
the "Salvar" button of the client registration form. -/
theorem C6_single_fixed_wait_after_salvar :
    addClientTrace.filter isFixedWait = [Act.waitTimeout 2000] ∧
    verifyTrace.filter isFixedWait = [Act.waitTimeout 2000] ∧
    addClientTrace.get? 8 = some (Act.click (Selector.byRoleButton "Salvar")) ∧
    addClientTrace.get? 9 = some (Act.waitTimeout 2000) ∧
    verifyTrace.get? 5 = some (Act.click (Selector.byRoleButton "Salvar")) ∧
    verifyTrace.get? 6 = some (Act.waitTimeout 2000) := by decide

/-- C7 counterexample: in `add_client.py` the navbar-visibility assertion
(step 5) precedes the submit click on "Salvar" (step 8), so it is false
that the submit click precedes every assertion. -/
theorem C7_counterexample :
    allBefore addClientTrace isSubmitClick isAssertion = false ∧
    addClientTrace.get? 5 = some (Act.expectVisible (Selector.byCss "#navbarNav")) ∧
    addClientTrace.get? 8 = some (Act.click (Selector.byRoleButton "Salvar")) := by decide

/-- C7 amended: launch precedes every navigation; in `add_client.py` the
navigation precedes the navbar assertion, which precedes the fills, which
precede the submit click; in `verify_multi_part_devolution.py` each of the
two page segments orders its navigation before its fills before its submit
click, the "Salvar Devolução" click precedes the success assertions, which
precede the screenshot, which precedes the close; in both scripts the
single `browser.close()` is the last operation. -/
theorem C7_operation_order :
    allBefore addClientTrace isLaunch isGoto = true ∧
    allBefore verifyTrace isLaunch isGoto = true ∧
    addClientTrace.getLast? = some Act.close ∧
    verifyTrace.getLast? = some Act.close ∧
    (addClientTrace.filter isClose).length = 1 ∧
    (verifyTrace.filter isClose).length = 1 ∧
    allBefore addClientTrace isGoto isFormFill = true ∧
    allBefore addClientTrace isGoto isAssertion = true ∧
    allBefore addClientTrace isAssertion isFormFill = true ∧
    allBefore addClientTrace isFormFill isSubmitClick = true ∧
    verifyTrace.get? 2 = some (Act.goto "http://localhost:5173/pages/cadastro-pessoas.html") ∧
    verifyTrace.get? 7 = some (Act.goto "http://localhost:5173/pages/cadastro.html") ∧
    (verifyTrace.filter isGoto).length = 2 ∧
    allBefore (verifyTrace.take 7) isGoto isFormFill = true ∧
    allBefore (verifyTrace.take 7) isFormFill isSubmitClick = true ∧
    allBefore (verifyTrace.drop 7) isGoto isFormFill = true ∧
    allBefore (verifyTrace.drop 7) isFormFill (isClickNamed "Salvar Devolução") = true ∧
    allBefore verifyTrace (isClickNamed "Salvar Devolução") isSuccessAssert = true ∧
    allBefore verifyTrace isSuccessAssert isFsEffect = true ∧
    allBefore verifyTrace isFsEffect isClose = true := by decide

/-- C8: `add_client.py` registers exactly a console listener and a
dialog-accepting handler, in that order, while
`verify_multi_part_devolution.py` registers no page event handler at all,
even though it too clicks the client form's "Salvar" button, so no dialog
in the devolution scenario is accepted by the script. -/
theorem C8_handler_registration :
    addClientTrace.filter isHandlerReg = [Act.onConsole, Act.onDialogAccept] ∧
    verifyTrace.filter isHandlerReg = [] ∧
    (Act.click (Selector.byRoleButton "Salvar")) ∈ verifyTrace ∧
    Act.onDialogAccept ∉ verifyTrace := by decide

/-- C9: "Adicionar Peça" is clicked exactly once, before any part-row
field is filled, and the part-row fills are exactly the six fills of rows
0 and 1, each row receiving code, quantity and description in that order,
all before the "Salvar Devolução" click. -/
theorem C9_adicionar_peca_once_two_rows :
    (verifyTrace.filter (isClickNamed "Adicionar Peça")).length = 1 ∧
    allBefore verifyTrace (isClickNamed "Adicionar Peça") isPartFill = true ∧
    verifyTrace.filter isPartFill =
      [Act.fill (Selector.byCssLabel partRow0 "Código da Peça") "PART-001",
       Act.fill (Selector.byCssLabel partRow0 "Quantidade") "1",
       Act.fill (Selector.byCssLabel partRow0 "Descrição da Peça") "Part 1 Description",
       Act.fill (Selector.byCssLabel partRow1 "Código da Peça") "PART-002",
       Act.fill (Selector.byCssLabel partRow1 "Quantidade") "2",
       Act.fill (Selector.byCssLabel partRow1 "Descrição da Peça") "Part 2 Description"] ∧
    allBefore verifyTrace isPartFill (isClickNamed "Salvar Devolução") = true := by decide

/-- C10 counterexample: an exception at global step 1 (`browser.new_page()`,
before the `try` in `verify_multi_part_devolution.py`) writes no screenshot
but also never runs `browser.close()`, contradicting the claim that close
still runs on every earlier failure. -/
theorem C10_counterexample :
    failsInTry verify_multi_part_devolution (some 1) = false ∧
    1 < verify_multi_part_devolution.numSteps ∧
    Act.screenshot screenshotPath ∉ executed verify_multi_part_devolution (some 1) ∧
    Act.close ∉ executed verify_multi_part_devolution (some 1) := by decide

/-- C10 amended: on the successful execution the screenshot is taken, and
only after both success assertions; if any step inside the `try` body
raises, no screenshot is written while `browser.close()` still runs; and
the screenshot is the only file-system effect of either script. -/
theorem C10_screenshot_last_effect (k : Nat)
    (h1 : verify_multi_part_devolution.prelude.length ≤ k)
    (h2 : k < verify_multi_part_devolution.numSteps) :
    Act.screenshot screenshotPath ∉ executed verify_multi_part_devolution (some k) ∧
    Act.close ∈ executed verify_multi_part_devolution (some k) ∧
    Act.screenshot screenshotPath ∈ executed verify_multi_part_devolution none ∧
    allBefore verifyTrace isSuccessAssert isFsEffect = true ∧
    verifyTrace.filter isFsEffect = [Act.screenshot screenshotPath] ∧
    addClientTrace.filter isFsEffect = [] := by
  have H : ∀ m, m < 25 → 2 ≤ m →
      Act.screenshot screenshotPath ∉ executed verify_multi_part_devolution (some m) ∧
      Act.close ∈ executed verify_multi_part_devolution (some m) := by decide
  exact ⟨(H k h2 h1).1, (H k h2 h1).2, by decide, by decide, by decide, by decide⟩

/-- Witness for C10 amended at a raise inside the `try` body (step 9). -/
theorem C10_screenshot_last_effect_witness :
    Act.screenshot screenshotPath ∉ executed verify_multi_part_devolution (some 9) ∧
    Act.close ∈ executed verify_multi_part_devolution (some 9) ∧
    Act.screenshot screenshotPath ∈ executed verify_multi_part_devolution none ∧
    allBefore verifyTrace isSuccessAssert isFsEffect = true ∧
    verifyTrace.filter isFsEffect = [Act.screenshot screenshotPath] ∧
    addClientTrace.filter isFsEffect = [] :=
  C10_screenshot_last_effect 9 (by decide) (by decide)
